import Mathlib

/-!
Shallow embedding of the frame-analyzer-ebpf userspace engine
(`src/frame-analyzer/src/{uprobe.rs, lib.rs, c_api.rs}`) and proofs about it.

Conventions of the embedding:
* Rust `Option`/`Result` become Lean `Option`/`Except`.
* `std::time::Duration` values produced by the analyzer are carried as a
  total nanosecond count (`FrameDur := Nat`); `as_secs` is `/ 10^9`
  (truncated to the C `unsigned int` width where the source casts),
  `subsec_nanos` is `% 10^9`.
* `HashMap<Pid, AnalyzeTarget>` is an association list with unique keys;
  `VecDeque` is a list (front = head).
* The `mio::Poll` instance is its set of registered tokens, as a list.
  `Registry::register` on an fd that is already registered in the same
  poll instance fails (epoll `EEXIST`); this is modelled by
  `registerFold`, which errors on a duplicate token.  Each attached pid's
  ring-buffer fd is registered under `Token(pid)`, so tokens and fds are
  identified with pids here.
* OS effects that feed the program (does a library path exist? does a
  uprobe attach succeed? which tokens did one poll wait report? what did
  `eventfd` return?) are passed in as explicit parameters.
-/

namespace FrameAnalyzer

/-- Model of `Pid` from `lib.rs`: `pub type Pid = i32;` (values as integers). -/
abbrev Pid := Int

/-- A frame duration in nanoseconds (`std::time::Duration` contents). -/
abbrev FrameDur := Nat

/-- Model of `AnalyzerError` from `error.rs` (payloads of the wrapped error kinds are
dropped; only the constructor matters to the claims). -/
inductive AnalyzerError where
  | ebpfError
  | bpfProgramError
  | bpfMapError
  | ioError
  | appNotFound
  | mapError
deriving Repr, DecidableEq

/-! ## ProbeAttachment search (`uprobe.rs`, `UprobeHandler::attach_app`) -/

/-- The ordered candidate symbol list from `UprobeHandler::attach_app`. -/
def queue_buffer_symbols : List String :=
  [ "_ZN7android7Surface11queueBufferEP19ANativeWindowBufferi"
  , "_ZN7android7Surface11queueBufferEP19ANativeWindowBufferiPNS_24SurfaceQueueBufferOutputE"
  , "_ZN7android7Surface11queueBufferEP19ANativeWindowBufferj"
  , "_ZN7android7Surface11queueBufferEP19ANativeWindowBufferjPNS_24SurfaceQueueBufferOutputE"
  , "_ZN7android7Surface11queueBufferEP19ANativeWindowBufferl"
  , "_ZN7android7Surface11queueBufferEP19ANativeWindowBufferlPNS_24SurfaceQueueBufferOutputE" ]

/-- The ordered candidate library path list from `UprobeHandler::attach_app`. -/
def libgui_paths : List String :=
  [ "/system/lib64/libgui.so"
  , "/vendor/lib64/libgui.so" ]

/-- The filesystem / kernel environment the attach search runs against:
whether a library path exists, and whether `program.attach(symbol, 0, path,
pid)` succeeds for a given (path, symbol) pair. -/
structure AttachEnv where
  pathExists : String → Bool
  attachOk : String → String → Bool

/-- The inner loop of `attach_app`: try each candidate symbol at one existing
library path.  Returns the list of (path, symbol) attach attempts made, in
order, and the successful symbol if any (the loop breaks on first success). -/
def trySymbols (env : AttachEnv) (path : String) : List String → List (String × String) × Option String
  | [] => ([], none)
  | s :: rest =>
    if env.attachOk path s then ([(path, s)], some s)
    else
      let r := trySymbols env path rest
      ((path, s) :: r.1, r.2)

/-- The outer loop of `attach_app`: walk the candidate paths, skipping paths
whose file does not exist; at each existing path run the symbol loop; a
successful (path, symbol) pair breaks out of both loops (`break 'outer`).
Returns the attempts made and the winning pair if any. -/
def searchPaths (env : AttachEnv) : List String → List (String × String) × Option (String × String)
  | [] => ([], none)
  | p :: rest =>
    if env.pathExists p then
      let r := trySymbols env p queue_buffer_symbols
      match r.2 with
      | some s => (r.1, some (p, s))
      | none =>
        let next := searchPaths env rest
        (r.1 ++ next.1, next.2)
    else searchPaths env rest

/-- Model of `UprobeHandler::attach_app`, after a successful bytecode/program load:
the search over paths and symbols; exhaustion yields `AppNotFound`, success
yields the winning (path, symbol) pair (the source records the path in
`libgui_path` and keeps the attached program). -/
def attach_app_search (env : AttachEnv) : Except AnalyzerError (String × String) :=
  match (searchPaths env libgui_paths).2 with
  | some ps => .ok ps
  | none => .error .appNotFound

/-- The sequence of attach attempts `attach_app` makes, in order. -/
def attachAttempts (env : AttachEnv) : List (String × String) :=
  (searchPaths env libgui_paths).1

/-- The ordered candidate (path, symbol) combinations over a given path list:
paths whose file does not exist are skipped; at each remaining path every
candidate symbol, in order. -/
def candidatesOver (env : AttachEnv) (paths : List String) : List (String × String) :=
  (paths.filter env.pathExists).flatMap fun p => queue_buffer_symbols.map fun s => (p, s)

/-- The full ordered candidate list of `attach_app`. -/
def candidates (env : AttachEnv) : List (String × String) :=
  candidatesOver env libgui_paths

/-! ## FrameSource (`analyze_target.rs`, `AnalyzeTarget`)

Modelled from the spec: the repository declares `mod analyze_target;` in
`lib.rs` and uses `AnalyzeTarget::new` / `AnalyzeTarget::update`, but the
file `analyze_target.rs` itself is not among the source files.  The
definitions below follow §4.2 of the spec: a FrameSource wraps one probe
attachment's ring buffer and the last-seen raw timestamp; `update` drains
exactly one pending record if present; with no prior timestamp it stores the
new one and returns absent; otherwise it returns `new − previous` and stores
the new timestamp. -/

/-- Modelled from the spec: a FrameSource (`AnalyzeTarget`).  `ring` is the
owned ring buffer's pending raw timestamps, front first; `last` the stored
previous raw timestamp (absent until the first record arrives). -/
structure AnalyzeTarget where
  ring : List Nat
  last : Option Nat
deriving Repr, DecidableEq

/-- Modelled from the spec: `AnalyzeTarget::new(uprobe)` — a fresh
FrameSource over the attachment's ring buffer with no stored timestamp. -/
def AnalyzeTarget.new (ring : List Nat) : AnalyzeTarget :=
  { ring := ring, last := none }

/-- Modelled from the spec: `AnalyzeTarget::update()` — drain one pending
record if present; first record is only stored; later records yield the
duration `new − previous` (nanoseconds) and replace the stored timestamp. -/
def AnalyzeTarget.update : AnalyzeTarget → Option FrameDur × AnalyzeTarget
  | ⟨[], last⟩ => (none, ⟨[], last⟩)
  | ⟨t :: rest, none⟩ => (none, ⟨rest, some t⟩)
  | ⟨t :: rest, some prev⟩ => (some (t - prev), ⟨rest, some t⟩)

/-! ## Engine (`lib.rs`, `Analyzer`) -/

/-- Model of `Analyzer` from `lib.rs`.  `poll` is the `Option<Poll>` slot, carried as
the poll instance's list of registered tokens (pids); `map` is the
`HashMap<Pid, AnalyzeTarget>` as an association list with unique keys (new
keys are appended, and `register_poll` visits entries in list order); `buffer`
is the `VecDeque<Pid>` of multiplexed-but-unconsumed pids, front first. -/
structure Analyzer where
  poll : Option (List Pid)
  map : List (Pid × AnalyzeTarget)
  buffer : List Pid
deriving Repr, DecidableEq

/-- Model of `Analyzer::new()` (it always returns `Ok`). -/
def Analyzer.new : Analyzer :=
  { poll := none, map := [], buffer := [] }

/-- Model of `Analyzer::contains` (`map.contains_key`). -/
def Analyzer.contains (a : Analyzer) (pid : Pid) : Bool :=
  a.map.any fun e => e.1 == pid

/-- The registration loop of `register_poll`: register each key's ring-buffer
fd, in map order, into the poll instance whose current token set is `reg`.
`Registry::register` fails on an fd that this poll instance already has
(epoll `EEXIST`, surfaced as an I/O error); on success the token is added. -/
def registerFold (reg : List Pid) : List Pid → Except AnalyzerError (List Pid)
  | [] => .ok reg
  | p :: rest =>
    if reg.contains p then .error .ioError
    else registerFold (reg ++ [p]) rest

/-- Model of `Analyzer::register_poll`: take the existing poll instance out of the
`Option` (or create a fresh, empty one), then register every map entry's
ring-buffer fd into it.  Only on success is the instance put back; when a
registration fails the `?` returns early and the taken instance is dropped,
leaving `poll = none`. -/
def Analyzer.register_poll (a : Analyzer) : Except AnalyzerError Unit × Analyzer :=
  let reg := a.poll.getD []
  match registerFold reg (a.map.map Prod.fst) with
  | .ok reg' => (.ok (), { a with poll := some reg' })
  | .error e => (.error e, { a with poll := none })

/-- Model of `Analyzer::attach_app`.  The outcome of `UprobeHandler::attach_app(pid)`
is passed in as `uprobe`: on success it carries the new attachment's ring
buffer contents (the handler itself), on failure the error. -/
def Analyzer.attach_app (a : Analyzer) (pid : Pid)
    (uprobe : Except AnalyzerError (List Nat)) : Except AnalyzerError Unit × Analyzer :=
  if a.contains pid then (.ok (), a)
  else
    match uprobe with
    | .error e => (.error e, a)
    | .ok ring =>
      let a' := { a with map := a.map ++ [(pid, AnalyzeTarget.new ring)] }
      a'.register_poll

/-- Model of `Analyzer::detach_app`.  Removing the map entry drops the probe handler
(closing its ring fd, which the kernel then drops from the epoll set), the
buffer keeps only other pids (`retain`), and the registration is re-run. -/
def Analyzer.detach_app (a : Analyzer) (pid : Pid) : Except AnalyzerError Unit × Analyzer :=
  if !a.contains pid then (.ok (), a)
  else
    let a' := { a with
      map := a.map.filter fun e => e.1 != pid
      poll := a.poll.map (List.filter fun q => q != pid)
      buffer := a.buffer.filter fun q => q != pid }
    a'.register_poll

/-- Model of `Analyzer::detach_apps`. -/
def Analyzer.detach_apps (a : Analyzer) : Analyzer :=
  { a with map := [], buffer := [] }

/-- The buffer-filling step shared by `recv` and `recv_timeout`: when the
internal queue is empty, one poll wait is performed (only if a poll instance
exists) and the reported tokens (`events`, in multiplexer order) are appended
to the queue; then `register_poll` is re-run with its result discarded
(`let _ = self.register_poll();`). -/
def Analyzer.recvFill (a : Analyzer) (events : List Pid) : Analyzer :=
  if a.buffer.isEmpty then
    let a' := match a.poll with
      | some _ => { a with buffer := a.buffer ++ events }
      | none => a
    (a'.register_poll).2
  else a

/-- The popping tail shared by `recv` and `recv_timeout`: pop the front pid
(`?` yields `none` on an empty queue), look the pid up in the map (`?` on a
missing entry), run its `update` in place (`?` on an absent duration). -/
def Analyzer.recvPop (a : Analyzer) : Option (Pid × FrameDur) × Analyzer :=
  match a.buffer with
  | [] => (none, a)
  | pid :: rest =>
    let a₂ := { a with buffer := rest }
    match a₂.map.find? (fun e => e.1 == pid) with
    | none => (none, a₂)
    | some entry =>
      let r := entry.2.update
      let a₃ := { a₂ with map := a₂.map.map fun e => if e.1 == pid then (e.1, r.2) else e }
      match r.1 with
      | none => (none, a₃)
      | some d => (some (pid, d), a₃)

/-- The shared body of `recv` and `recv_timeout`: fill the queue if empty,
then pop. -/
def Analyzer.recvCore (a : Analyzer) (events : List Pid) :
    Option (Pid × FrameDur) × Analyzer :=
  (a.recvFill events).recvPop

/-- Model of `Analyzer::recv` (blocking wait; `events` is what the wait reported). -/
def Analyzer.recv (a : Analyzer) (events : List Pid) : Option (Pid × FrameDur) × Analyzer :=
  a.recvCore events

/-- Model of `Analyzer::recv_timeout` (bounded wait; `time` is the bound in
nanoseconds and `events` what the wait reported before it elapsed). -/
def Analyzer.recv_timeout (a : Analyzer) (time : Nat) (events : List Pid) :
    Option (Pid × FrameDur) × Analyzer :=
  a.recvCore events

/-- The Engine state after `attach_app(1)` on a fresh Engine (the uprobe
attach succeeding with an empty ring buffer). -/
def engineAfterFirstAttach : Analyzer :=
  (Analyzer.new.attach_app 1 (.ok [])).2

/-- The second attach, `attach_app(2)`, on that state (its uprobe attach also
succeeding). -/
def engineSecondAttach : Except AnalyzerError Unit × Analyzer :=
  engineAfterFirstAttach.attach_app 2 (.ok [])

/-! ## ConcurrencyGateway (`c_api.rs`)

The global statics (`RUNNING`, `GLOBAL_ANALYZER`, `FRAME_BUFFER`,
`NOTIFY_FD`, `NOTIFY_THREAD`, `PAUSED`) are gathered into one `Gateway`
record and the C functions become state transitions on it, sequentially (the
locking, condition-variable blocking and `catch_unwind` around the calls are
elided: in a single-threaded run every `lock`/`try_lock` succeeds and nothing
panics).  `FRAME_BUFFER` is a `LazyLock` static: it is created once per
process and is *not* replaced by `frame_analyzer_init`, so its fields persist
across a destroy/init cycle.  A `FrameBuffer.pop` models the state of the
shared queue as observed after the single `Condvar::wait_timeout`. -/

/-- Model of `FrameBuffer` from `c_api.rs`: the shared pending-event queue (`data`,
FIFO by arrival) and its `running` flag (`AtomicBool`, true at creation,
cleared by `stop`). -/
structure FrameBuffer where
  data : List (Pid × FrameDur)
  running : Bool
deriving Repr, DecidableEq

/-- Model of `FrameBuffer::new()`. -/
def FrameBuffer.new : FrameBuffer :=
  { data := [], running := true }

/-- Model of `FrameBuffer::push`: dropped entirely when the queue has been stopped. -/
def FrameBuffer.push (b : FrameBuffer) (pid : Pid) (d : FrameDur) : FrameBuffer :=
  if !b.running then b
  else { b with data := b.data ++ [(pid, d)] }

/-- Model of `data.iter().position(|(p, _)| *p == pid)` followed by `data.remove(pos)`:
the first entry anywhere in the queue whose pid matches is removed and its
duration returned; with no match the queue is unchanged. -/
def popFirst (pid : Pid) : List (Pid × FrameDur) → Option FrameDur × List (Pid × FrameDur)
  | [] => (none, [])
  | e :: rest =>
    if e.1 == pid then (some e.2, rest)
    else
      let r := popFirst pid rest
      (r.1, e :: r.2)

/-- Model of `FrameBuffer::pop`: `none` immediately when stopped; otherwise one
condition-variable wait bounded by `timeout`, then remove and return the
first matching entry of the queue as then observed (`data` here). -/
def FrameBuffer.pop (b : FrameBuffer) (pid : Pid) (timeout : Nat) : Option FrameDur × FrameBuffer :=
  if !b.running then (none, b)
  else
    let r := popFirst pid b.data
    (r.1, { b with data := r.2 })

/-- Model of `FrameBuffer::stop`: clears the running flag (the queue contents are not
touched) and wakes all waiters. -/
def FrameBuffer.stop (b : FrameBuffer) : FrameBuffer :=
  { b with running := false }

/-- The global state of `c_api.rs` as one record. -/
structure Gateway where
  running : Bool
  analyzer : Option Analyzer
  buf : FrameBuffer
  notifyFd : Option Nat
  thread : Bool
  paused : Bool
deriving Repr, DecidableEq

/-- The process-start state: nothing initialized, the lazily created frame
buffer in its initial state. -/
def Gateway.fresh : Gateway :=
  { running := false, analyzer := none, buf := FrameBuffer.new
    notifyFd := none, thread := false, paused := false }

/-- Model of `frame_analyzer_init`.  `efd` is what the `eventfd` call returned
(negative means failure).  `Analyzer::new()` always succeeds.  Note what is
*not* touched: `buf` (the `LazyLock` static) and `paused`. -/
def frame_analyzer_init (g : Gateway) (efd : Int) : Int × Gateway :=
  if g.running then (0, g)
  else if g.analyzer.isSome then (0, g)
  else if efd < 0 then (-1, g)
  else
    (0, { g with running := true, analyzer := some Analyzer.new
                 notifyFd := some efd.toNat, thread := true })

/-- The timeout clamp inside `frame_analyzer_get_frametime`:
`t <= 0 => 0`, `t > 5000 => 100`, otherwise `t` (milliseconds). -/
def effective_timeout (timeout_ms : Int) : Nat :=
  if timeout_ms ≤ 0 then 0
  else if timeout_ms > 5000 then 100
  else timeout_ms.toNat

/-- What one `frame_analyzer_get_frametime` call did: its return status, the
state afterwards, what was written through the out-pointer (`as_secs` cast to
the C unsigned int, `subsec_nanos`), whether the notification eventfd was
read, and the wait bound handed to `FrameBuffer::pop` (none when the call
returned before computing it). -/
structure GetFrametimeResult where
  status : Int
  gateway : Gateway
  written : Option (Nat × Nat)
  clearedFd : Bool
  waitBound : Option Nat
deriving Repr, DecidableEq

/-- Model of `frame_analyzer_get_frametime`.  `outNull` is whether the out-pointer is
null. -/
def frame_analyzer_get_frametime (g : Gateway) (pid : Pid) (timeout_ms : Int)
    (outNull : Bool) : GetFrametimeResult :=
  if outNull || !g.running then ⟨-1, g, none, false, none⟩
  else
    let timeout := effective_timeout timeout_ms
    let cleared := g.notifyFd.isSome
    let r := g.buf.pop pid timeout
    let g' := { g with buf := r.2 }
    match r.1 with
    | some d =>
      ⟨0, g', some (d / 1000000000 % 4294967296, d % 1000000000), cleared, some timeout⟩
    | none => ⟨-1, g', none, cleared, some timeout⟩

/-- Model of `frame_analyzer_destroy`: 0 when not running; otherwise resume (clear
`PAUSED`, wake), clear `RUNNING`, stop the frame buffer (flag only — its
queued data stays), join and drop the thread, detach all apps and drop the
analyzer, close and clear the notify fd, and return 0. -/
def frame_analyzer_destroy (g : Gateway) : Int × Gateway :=
  if !g.running then (0, g)
  else
    (0, { running := false, analyzer := none, buf := g.buf.stop
          notifyFd := none, thread := false, paused := false })

/-- Model of `frame_analyzer_pause`. -/
def frame_analyzer_pause (g : Gateway) : Int × Gateway :=
  if !g.running then (-1, g)
  else (0, { g with paused := true })

/-- Model of `frame_analyzer_resume`. -/
def frame_analyzer_resume (g : Gateway) : Int × Gateway :=
  if !g.running then (-1, g)
  else (0, { g with paused := false })

/-- The gateway after a first successful `frame_analyzer_init` (the `eventfd`
call returning descriptor 4). -/
def gwInit : Gateway :=
  (frame_analyzer_init Gateway.fresh 4).2

/-- That gateway after the background thread drained one frame for pid 1
(16 ms) and pushed it into the shared queue. -/
def gwWithFrame : Gateway :=
  { gwInit with buf := gwInit.buf.push 1 16000000 }

/-- Model of `frame_analyzer_destroy` on that state. -/
def gwDestroyed : Int × Gateway :=
  frame_analyzer_destroy gwWithFrame

/-- A second `frame_analyzer_init` after the destroy (the `eventfd` call
returning descriptor 5). -/
def gwReinit : Int × Gateway :=
  frame_analyzer_init gwDestroyed.2 5

/-! ## Theorems -/

theorem takeWhile_eq_self_of_find?_eq_none {α : Type _} {p : α → Bool} :
    ∀ {l : List α}, l.find? p = none → l.takeWhile (fun a => !p a) = l
  | [], _ => rfl
  | a :: l, h => by
    by_cases ha : p a
    · simp [List.find?_cons, ha] at h
    · simp only [List.find?_cons, ha, List.takeWhile_cons] at h ⊢
      simp [ha, takeWhile_eq_self_of_find?_eq_none h]

theorem takeWhile_append_of_find?_some {α : Type _} {p : α → Bool} {c : α} (l₂ : List α) :
    ∀ {l₁ : List α}, l₁.find? p = some c →
      (l₁ ++ l₂).takeWhile (fun a => !p a) = l₁.takeWhile (fun a => !p a)
  | [], h => by simp at h
  | a :: l, h => by
    by_cases ha : p a
    · simp [List.takeWhile_cons, ha]
    · simp only [List.find?_cons, ha, cond_false] at h
      simp [List.takeWhile_cons, ha, takeWhile_append_of_find?_some l₂ h]

theorem trySymbols_snd (env : AttachEnv) (p : String) :
    ∀ syms : List String, (trySymbols env p syms).2 = syms.find? (env.attachOk p)
  | [] => rfl
  | s :: rest => by
    by_cases h : env.attachOk p s <;>
      simp [trySymbols, List.find?_cons, h, trySymbols_snd env p rest]

theorem trySymbols_fst (env : AttachEnv) (p : String) :
    ∀ syms : List String,
      (trySymbols env p syms).1 =
        (syms.takeWhile fun s => !env.attachOk p s).map (fun s => (p, s))
          ++ ((syms.find? (env.attachOk p)).map fun s => (p, s)).toList
  | [] => rfl
  | s :: rest => by
    by_cases h : env.attachOk p s <;>
      simp [trySymbols, List.find?_cons, List.takeWhile_cons, h, trySymbols_fst env p rest]

theorem candidatesOver_cons_pos (env : AttachEnv) (p : String) (rest : List String)
    (h : env.pathExists p) :
    candidatesOver env (p :: rest) =
      (queue_buffer_symbols.map fun s => (p, s)) ++ candidatesOver env rest := by
  simp [candidatesOver, List.filter_cons, h]

theorem find?_candidates_block (env : AttachEnv) (p : String) :
    ((queue_buffer_symbols.map fun s => (p, s)).find? fun c => env.attachOk c.1 c.2)
      = (queue_buffer_symbols.find? (env.attachOk p)).map fun s => (p, s) := by
  rw [List.find?_map]
  rfl

theorem searchPaths_snd (env : AttachEnv) :
    ∀ paths : List String,
      (searchPaths env paths).2 = (candidatesOver env paths).find? fun c => env.attachOk c.1 c.2
  | [] => rfl
  | p :: rest => by
    by_cases hp : env.pathExists p
    · rw [candidatesOver_cons_pos env p rest hp]
      rw [List.find?_append, find?_candidates_block]
      simp only [searchPaths, hp, if_true]
      cases hfind : (trySymbols env p queue_buffer_symbols).2 with
      | some s =>
        have := trySymbols_snd env p queue_buffer_symbols
        rw [hfind] at this
        simp only [hfind, ← this]
        rfl
      | none =>
        have := trySymbols_snd env p queue_buffer_symbols
        rw [hfind] at this
        simp [hfind, ← this, searchPaths_snd env rest]
    · simp [searchPaths, hp, candidatesOver, List.filter_cons, searchPaths_snd env rest]

theorem searchPaths_fst (env : AttachEnv) :
    ∀ paths : List String,
      (searchPaths env paths).1 =
        (candidatesOver env paths).takeWhile (fun c => !env.attachOk c.1 c.2)
          ++ ((candidatesOver env paths).find? fun c => env.attachOk c.1 c.2).toList
  | [] => rfl
  | p :: rest => by
    by_cases hp : env.pathExists p
    · rw [candidatesOver_cons_pos env p rest hp]
      simp only [searchPaths, hp, if_true]
      cases hfind : (trySymbols env p queue_buffer_symbols).2 with
      | some s =>
        have hsnd := trySymbols_snd env p queue_buffer_symbols
        rw [hfind] at hsnd
        have hblock : ((queue_buffer_symbols.map fun s => (p, s)).find?
            fun c => env.attachOk c.1 c.2) = some (p, s) := by
          rw [find?_candidates_block, ← hsnd]
          rfl
        rw [takeWhile_append_of_find?_some _ hblock, List.find?_append, hblock]
        have hfst := trySymbols_fst env p queue_buffer_symbols
        rw [← hsnd] at hfst
        simp only [hfst, List.takeWhile_map, Option.map_some]
        simp [Function.comp_def]
      | none =>
        have hsnd := trySymbols_snd env p queue_buffer_symbols
        rw [hfind] at hsnd
        have hblock : ((queue_buffer_symbols.map fun s => (p, s)).find?
            fun c => env.attachOk c.1 c.2) = none := by
          rw [find?_candidates_block, ← hsnd]
          rfl
        have hpos : ∀ c ∈ queue_buffer_symbols.map fun s => (p, s),
            (fun c => !env.attachOk c.1 c.2) c = true := by
          intro c hc
          have := List.find?_eq_none.mp hblock c hc
          simpa using this
        rw [List.takeWhile_append_of_pos hpos, List.find?_append, hblock]
        have hfst := trySymbols_fst env p queue_buffer_symbols
        rw [← hsnd] at hfst
        have hall : (trySymbols env p queue_buffer_symbols).1 =
            queue_buffer_symbols.map fun s => (p, s) := by
          rw [hfst, takeWhile_eq_self_of_find?_eq_none hsnd.symm]
          simp
        simp [hall, searchPaths_fst env rest]
    · simp [searchPaths, hp, candidatesOver, List.filter_cons, searchPaths_fst env rest]

/-- C1: `attach_app` iterates the ordered candidate library paths, skipping any
path whose file does not exist, and for each existing path the ordered
candidate symbols; the result is determined by the first (path, symbol)
candidate that attaches successfully (`find?` on the ordered candidate list),
the attempts made are exactly the failing prefix followed by that first
success (so no later combination is tried after a success, and every
combination is tried on exhaustion), and exhaustion yields the single
`AppNotFound` error, whatever the reason each individual attach failed. -/
theorem attach_app_first_success (env : AttachEnv) :
    attach_app_search env =
      (match (candidates env).find? (fun c => env.attachOk c.1 c.2) with
        | some c => Except.ok c
        | none => Except.error AnalyzerError.appNotFound)
  ∧ attachAttempts env =
      (candidates env).takeWhile (fun c => !env.attachOk c.1 c.2)
        ++ ((candidates env).find? (fun c => env.attachOk c.1 c.2)).toList := by
  constructor
  · rw [attach_app_search, searchPaths_snd env libgui_paths]
    rfl
  · rw [attachAttempts, searchPaths_fst env libgui_paths]
    rfl

theorem register_poll_snd_map (a : Analyzer) : (a.register_poll).2.map = a.map := by
  unfold Analyzer.register_poll
  cases h : registerFold (a.poll.getD []) (a.map.map Prod.fst) <;> simp [h]

theorem register_poll_snd_buffer (a : Analyzer) : (a.register_poll).2.buffer = a.buffer := by
  unfold Analyzer.register_poll
  cases h : registerFold (a.poll.getD []) (a.map.map Prod.fst) <;> simp [h]

/-- C5: `update()` on a FrameSource drains exactly one pending record when one
is present; with no pending record it changes nothing and yields absent; the
first ever record is stored and yields absent; every later record yields the
duration `new − previous` and replaces the stored timestamp. -/
theorem analyze_target_update_spec (tgt : AnalyzeTarget) (t prev : Nat) (rest : List Nat) :
    ((tgt.update).2.ring = tgt.ring.tail)
  ∧ (tgt.ring = [] → tgt.update = (none, tgt))
  ∧ (tgt.ring = t :: rest → tgt.last = none →
      tgt.update = (none, { ring := rest, last := some t }))
  ∧ (tgt.ring = t :: rest → tgt.last = some prev →
      tgt.update = (some (t - prev), { ring := rest, last := some t })) := by
  obtain ⟨ring, last⟩ := tgt
  refine ⟨?_, ?_, ?_, ?_⟩
  · cases ring <;> cases last <;> rfl
  · rintro rfl
    cases last <;> rfl
  · rintro h rfl
    cases ring with
    | nil => cases h
    | cons x xs => cases h; rfl
  · rintro h h'
    cases ring with
    | nil => cases h
    | cons x xs => cases h; cases h'; rfl

/-- C7: attaching a pid that is already in the Engine's mapping is a no-op:
the call succeeds and the whole Engine state (mapping, the pid's FrameSource
with its stored timestamp, and the multiplexer registration) is unchanged —
the probe-attachment step is not even consulted. -/
theorem attach_app_idempotent (a : Analyzer) (pid : Pid)
    (uprobe : Except AnalyzerError (List Nat)) (h : a.contains pid = true) :
    a.attach_app pid uprobe = (.ok (), a) := by
  unfold Analyzer.attach_app
  rw [h]
  rfl

/-- C7 witness: attaching pid 7 twice; the second call succeeds and changes
nothing even though its probe-attachment outcome would be a failure. -/
theorem attach_app_idempotent_witness :
    (Analyzer.new.attach_app 7 (.ok [])).2.attach_app 7 (.error .appNotFound)
      = (.ok (), (Analyzer.new.attach_app 7 (.ok [])).2) :=
  attach_app_idempotent (Analyzer.new.attach_app 7 (.ok [])).2 7 (.error .appNotFound)
    (by decide)

/-- C8: detaching a pid that is not attached succeeds and changes nothing;
detaching an attached pid removes exactly that pid's FrameSource from the
mapping and drops exactly that pid's queued-but-unconsumed wake entries from
the internal queue, keeping the other entries in their original order. -/
theorem detach_app_spec (a : Analyzer) (pid : Pid) :
    (a.contains pid = false → a.detach_app pid = (.ok (), a))
  ∧ (a.contains pid = true →
      (a.detach_app pid).2.map = a.map.filter (fun e => e.1 != pid)
    ∧ (a.detach_app pid).2.buffer = a.buffer.filter (fun q => q != pid)) := by
  constructor
  · intro h
    unfold Analyzer.detach_app
    rw [h]
    rfl
  · intro h
    unfold Analyzer.detach_app
    rw [h]
    simp [register_poll_snd_map, register_poll_snd_buffer]

/-- C2 (code bug): after attaching pid 1 the poll instance has pid 1's ring
descriptor registered; attaching pid 2 then re-runs `register_poll`, which
re-registers pid 1's already-registered descriptor into the same reused poll
instance.  That registration fails (epoll `EEXIST`), the error propagates out
of `attach_app`, and the taken poll instance is dropped: the mapping now
holds pids 1 and 2 but no multiplexer registration exists at all, so the
registered set does not equal the key set at the next wait. -/
theorem register_poll_rebuild_fails :
    engineAfterFirstAttach.poll = some [1]
  ∧ engineAfterFirstAttach.map.map Prod.fst = [1]
  ∧ engineSecondAttach.1 = .error .ioError
  ∧ engineSecondAttach.2.map.map Prod.fst = [1, 2]
  ∧ engineSecondAttach.2.poll = none :=
  ⟨rfl, rfl, rfl, rfl, rfl⟩

theorem recvPop_of_buffer_nil (a : Analyzer) (h : a.buffer = []) : a.recvPop = (none, a) := by
  obtain ⟨poll, map, buffer⟩ := a
  simp only at h
  subst h
  rfl

theorem recvPop_fst_of_update_none (a : Analyzer) (pid : Pid) (rest : List Pid)
    (entry : Pid × AnalyzeTarget) (hb : a.buffer = pid :: rest)
    (hfind : a.map.find? (fun e => e.1 == pid) = some entry)
    (hupd : (entry.2.update).1 = none) : (a.recvPop).1 = none := by
  obtain ⟨poll, map, buffer⟩ := a
  simp only at hb hfind
  subst hb
  unfold Analyzer.recvPop
  simp [hfind, hupd]

/-- C4: a wait that reports no ready process while the internal queue is
empty makes `recv`/`recv_timeout` yield absent (not an error); and when the
popped pid's FrameSource `update()` yields absent (a spurious wake), the
overall call yields absent as well — no internal retry in either case. -/
theorem recv_absent_not_error (a : Analyzer) (events : List Pid) (time : Nat) :
    (a.buffer = [] → events = [] →
        (a.recv events).1 = none ∧ (a.recv_timeout time events).1 = none)
  ∧ (∀ pid rest entry,
      (a.recvFill events).buffer = pid :: rest →
      (a.recvFill events).map.find? (fun e => e.1 == pid) = some entry →
      (entry.2.update).1 = none →
        (a.recv events).1 = none ∧ (a.recv_timeout time events).1 = none) := by
  constructor
  · intro hbuf hev
    have hfill : (a.recvFill events).buffer = [] := by
      unfold Analyzer.recvFill
      rw [hbuf, hev]
      cases hp : a.poll <;>
        simp [hp, register_poll_snd_buffer, hbuf]
    have : ((a.recvFill events).recvPop).1 = none := by
      rw [recvPop_of_buffer_nil _ hfill]
    exact ⟨this, this⟩
  · intro pid rest entry hfill hfind hupd
    have : ((a.recvFill events).recvPop).1 = none :=
      recvPop_fst_of_update_none _ pid rest entry hfill hfind hupd
    exact ⟨this, this⟩

theorem popFirst_fst_eq_none_iff (pid : Pid) :
    ∀ l : List (Pid × FrameDur), (popFirst pid l).1 = none ↔ ∀ e ∈ l, e.1 ≠ pid
  | [] => by simp [popFirst]
  | e :: rest => by
    by_cases h : e.1 == pid
    · simp only [popFirst, h, if_true]
      simp only [List.mem_cons, ne_eq]
      constructor
      · intro hc
        cases hc
      · intro hc
        exact absurd (by simpa using h) (hc e (Or.inl rfl))
    · simp only [popFirst, h, if_false, Bool.false_eq_true]
      rw [popFirst_fst_eq_none_iff pid rest]
      simp only [List.mem_cons, ne_eq]
      constructor
      · rintro hrest x (rfl | hx)
        · simpa using h
        · exact hrest x hx
      · intro hall x hx
        exact hall x (Or.inr hx)

theorem popFirst_fst_eq_some_mem (pid : Pid) (d : FrameDur) :
    ∀ l : List (Pid × FrameDur), (popFirst pid l).1 = some d → (pid, d) ∈ l
  | [] => by simp [popFirst]
  | e :: rest => by
    by_cases h : e.1 == pid
    · intro hd
      simp only [popFirst, h, if_true] at hd
      have h1 : e.1 = pid := by simpa using h
      have h2 : e.2 = d := by
        cases hd
        rfl
      have : e = (pid, d) := by
        rw [← h1, ← h2]
      rw [← this]
      exact List.mem_cons_self e rest
    · intro hd
      simp only [popFirst, h, Bool.false_eq_true, if_false] at hd
      exact List.mem_cons_of_mem e (popFirst_fst_eq_some_mem pid d rest hd)

theorem popFirst_split (pid : Pid) (d : FrameDur) (l₂ : List (Pid × FrameDur)) :
    ∀ l₁ : List (Pid × FrameDur), (∀ e ∈ l₁, e.1 ≠ pid) →
      popFirst pid (l₁ ++ (pid, d) :: l₂) = (some d, l₁ ++ l₂)
  | [], _ => by simp [popFirst]
  | e :: rest, h => by
    have he : (e.1 == pid) = false := by
      simpa using h e (List.mem_cons_self e rest)
    simp [popFirst, he,
      popFirst_split pid d l₂ rest fun x hx => h x (List.mem_cons_of_mem e hx)]

/-- C9: once a first `frame_analyzer_init` has succeeded (`RUNNING` is set),
every further `frame_analyzer_init` call returns 0 and changes nothing: no
new Engine is constructed, no thread spawned, no notification descriptor
replaced. -/
theorem init_idempotent (g : Gateway) (efd : Int) (h : g.running = true) :
    frame_analyzer_init g efd = (0, g) := by
  unfold frame_analyzer_init
  rw [h]
  rfl

/-- C9 witness: re-initializing the initialized gateway returns 0 and leaves
the state intact, even when the environment would now fail the `eventfd`
call. -/
theorem init_idempotent_witness : frame_analyzer_init gwInit (-1) = (0, gwInit) :=
  init_idempotent gwInit (-1) (by rfl)

/-- C10: the wait bound handed to the pending-event-queue wait is 0 ms when
`timeout_ms ≤ 0`, 100 ms when `timeout_ms > 5000` (a caller-supplied timeout
above 5 s is silently shortened to 100 ms), and `timeout_ms` ms otherwise;
no wait happens at all when the call fails its null/initialized checks. -/
theorem get_frametime_wait_bound (g : Gateway) (pid : Pid) (timeout_ms : Int)
    (outNull : Bool) :
    (frame_analyzer_get_frametime g pid timeout_ms outNull).waitBound =
      (if outNull || !g.running then none
       else some (if timeout_ms ≤ 0 then 0
                  else if timeout_ms > 5000 then 100
                  else timeout_ms.toNat)) := by
  unfold frame_analyzer_get_frametime
  by_cases h : (outNull || !g.running)
  · simp [h]
  · simp only [h, Bool.false_eq_true, if_false]
    cases (g.buf.pop pid (effective_timeout timeout_ms)).1 <;>
      simp [effective_timeout]

/-- C6 (code bug): `frame_analyzer_destroy` returns 0 in every state, and on
an initialized gateway clears the paused flag, signals stop, joins the
thread, drops the Engine, and clears the notification descriptor — but the
`LazyLock` frame buffer's `running` flag, cleared by `FrameBuffer::stop`, is
never set again by `frame_analyzer_init`, and the stopped queue keeps its
stale contents: after a destroy/init cycle the gateway reports initialized
yet every push is dropped and `frame_analyzer_get_frametime` fails even with
a matching entry still queued, so a subsequent init does not start clean. -/
theorem destroy_reinit_not_clean :
    (∀ g : Gateway, (frame_analyzer_destroy g).1 = 0)
  ∧ frame_analyzer_destroy Gateway.fresh = (0, Gateway.fresh)
  ∧ gwDestroyed.2.running = false
  ∧ gwDestroyed.2.paused = false
  ∧ gwDestroyed.2.thread = false
  ∧ gwDestroyed.2.analyzer = none
  ∧ gwDestroyed.2.notifyFd = none
  ∧ gwReinit.1 = 0
  ∧ gwReinit.2.running = true
  ∧ gwReinit.2.buf.running = false
  ∧ gwReinit.2.buf.data = [(1, 16000000)]
  ∧ gwReinit.2.buf.push 2 8000000 = gwReinit.2.buf
  ∧ (frame_analyzer_get_frametime gwReinit.2 1 100 false).status = -1 := by
  refine ⟨?_, rfl, rfl, rfl, rfl, rfl, rfl, rfl, rfl, rfl, rfl, rfl, rfl⟩
  intro g
  unfold frame_analyzer_destroy
  by_cases h : g.running <;> simp [h]

/-- C3 counterexample: the state after init, one queued frame for pid 1,
destroy, and a second init — the gateway is initialized (`running = true`),
the out-buffer is non-null, and an entry matching pid 1 sits in the
pending-event queue, yet the call returns −1 and writes nothing (the queue's
stopped flag, which the claim does not mention, makes `pop` fail
unconditionally). -/
theorem get_frametime_claim_counterexample :
    gwReinit.2.running = true
  ∧ gwReinit.2.buf.data.any (fun e => e.1 == 1) = true
  ∧ (frame_analyzer_get_frametime gwReinit.2 1 100 false).status = -1
  ∧ (frame_analyzer_get_frametime gwReinit.2 1 100 false).written = none :=
  ⟨rfl, rfl, rfl, rfl⟩

/-- C3 (amended): `frame_analyzer_get_frametime` returns a nonzero status
exactly when the out-buffer is null, the gateway is not initialized, the
pending-event queue has been stopped by a destroy, or no entry matching the
pid is obtained within the timeout; otherwise (on every success) it has
cleared any pending signal on the notification descriptor, removed the first
entry matching the pid found anywhere in the queue — not necessarily the
head — left the other entries in order, written the entry's whole seconds
and sub-second nanoseconds as two unsigned integers, and returned 0. -/
theorem get_frametime_spec (g : Gateway) (pid : Pid) (timeout_ms : Int)
    (outNull : Bool) :
    ((frame_analyzer_get_frametime g pid timeout_ms outNull).status ≠ 0 ↔
      (outNull = true ∨ g.running = false ∨ g.buf.running = false ∨
        ∀ e ∈ g.buf.data, e.1 ≠ pid))
  ∧ (outNull = false → g.running = true →
      (frame_analyzer_get_frametime g pid timeout_ms outNull).clearedFd =
        g.notifyFd.isSome)
  ∧ (∀ l₁ d l₂, outNull = false → g.running = true → g.buf.running = true →
      g.buf.data = l₁ ++ (pid, d) :: l₂ → (∀ e ∈ l₁, e.1 ≠ pid) →
        frame_analyzer_get_frametime g pid timeout_ms outNull =
          ⟨0, { g with buf := { g.buf with data := l₁ ++ l₂ } },
            some (d / 1000000000 % 4294967296, d % 1000000000),
            g.notifyFd.isSome, some (effective_timeout timeout_ms)⟩) := by
  refine ⟨?_, ?_, ?_⟩
  · by_cases hn : outNull
    · simp [frame_analyzer_get_frametime, hn]
    · by_cases hr : g.running
      · by_cases hb : g.buf.running
        · simp only [frame_analyzer_get_frametime, hn, hr, Bool.not_true, Bool.or_false,
            Bool.false_eq_true, if_false, FrameBuffer.pop, hb, Bool.not_true,
            Bool.false_eq_true, if_false]
          cases hpop : (popFirst pid g.buf.data).1 with
          | none =>
            simp only [hpop]
            have hall := (popFirst_fst_eq_none_iff pid g.buf.data).mp hpop
            simp [hn, hr, hb]
            exact fun a b hab => hall (a, b) hab
          | some d =>
            simp only [hpop]
            simp [hn, hr, hb]
            exact ⟨d, popFirst_fst_eq_some_mem pid d g.buf.data hpop⟩
        · simp [frame_analyzer_get_frametime, hn, hr, FrameBuffer.pop, hb]
      · simp [frame_analyzer_get_frametime, hn, hr]
  · intro hn hr
    simp only [frame_analyzer_get_frametime, hn, hr, Bool.not_true, Bool.or_false,
      Bool.false_eq_true, if_false]
    cases (g.buf.pop pid (effective_timeout timeout_ms)).1 <;> rfl
  · intro l₁ d l₂ hn hr hb hdata hnone
    have hpop : popFirst pid g.buf.data = (some d, l₁ ++ l₂) := by
      rw [hdata]
      exact popFirst_split pid d l₂ l₁ hnone
    simp only [frame_analyzer_get_frametime, hn, hr, Bool.not_true, Bool.or_false,
      Bool.false_eq_true, if_false, FrameBuffer.pop, hb, hpop]

end FrameAnalyzer
